import Mathlib

/-!
Verification of the meal-planner microservices specification against the code.

The development shallowly embeds the parts of the repository relevant to the
claims under scrutiny:

* the authentication service's token revocation logic
  (`src/authentication/src/services/auth_service.py`,
   `src/authentication/src/api/deps.py`,
   `src/authentication/src/infrastructure/cache.py`);
* the recipe / review services of the database service
  (`src/database-service/src/services/recipe_service.py`,
   `src/database-service/src/services/review_service.py`) and of the
  interaction service
  (`src/recipe-crud-interaction/src/services/recipe_service.py`,
   `src/recipe-crud-interaction/src/services/review_service.py`).

Time is modelled in integer seconds.  HTTP calls between the services are
modelled as direct calls of the callee's service-layer function; the outbound
call to the third-party recipe provider is modelled by an explicit
`Option ExtRecipe` argument (`none` = fetch failure / recipe unknown).
Python truthiness tests (`if not rid`, `if ext_id`, `if recipe.get ...`) are
embedded literally where they occur.
-/

namespace MealPlanner

/-! ### Tokens and the revocation store

A JWT is modelled by the claims the code reads (`sub`, `type`, `exp`)
together with a flag saying whether its signature verifies under the
service's secret key.  Two tokens are equal iff their raw strings are, so
the token itself serves as the blacklist key.

`python-jose`'s `jwt.decode` verifies the signature and the `exp` claim;
the claim check (`jose/jwt.py::_validate_exp`) raises `ExpiredSignatureError`
exactly when `exp < now`, so decoding succeeds iff the signature is valid
and `now ≤ exp`. -/

structure Token where
  sub : Option String
  typ : String
  exp : Int
  sigValid : Bool
  deriving DecidableEq, Repr

structure TokenPayload where
  sub : Option String
  typ : String
  exp : Int
  deriving DecidableEq, Repr

def jwtDecode (tok : Token) (now : Int) : Option TokenPayload :=
  if tok.sigValid && decide (now ≤ tok.exp) then
    some ⟨tok.sub, tok.typ, tok.exp⟩
  else
    none

/-- The Redis blacklist (`RedisClient` in `infrastructure/cache.py`),
modelled as an association list from token to the absolute expiry instant of
its blacklist entry.  `setex key ttl` at instant `now` stores the entry with
expiry `now + ttl`, overwriting any previous entry for the key; a key is
visible while `now < expiry`. -/
abbrev Blacklist := List (Token × Int)

def setex (bl : Blacklist) (tok : Token) (expiry : Int) : Blacklist :=
  (tok, expiry) :: bl.filter (fun p => !(p.1 == tok))

/-- Embeds `RedisClient.is_token_revoked`: the key `blacklist:<token>` is present
and not yet expired. -/
def isTokenRevoked (bl : Blacklist) (tok : Token) (now : Int) : Bool :=
  bl.any (fun p => p.1 == tok && decide (now < p.2))

structure User where
  id : Nat
  username : String
  deriving DecidableEq, Repr

/-- Failures surfaced by the authentication code.  `revoked` and
`couldNotValidate` are the two real 401 `HTTPException`s of
`deps.get_current_user`.  `attributeErrorCrash` models every
`raise exc.InvalidToken(...)` site of `AuthService`: `src.core.exceptions`
defines no `InvalidToken` class, so evaluating `exc.InvalidToken` aborts the
request with an unhandled `AttributeError` (no endpoint or app-level handler
catches it), which FastAPI turns into an HTTP 500 response. -/
inductive AuthFailure where
  | revoked (detail : String)
  | couldNotValidate
  | attributeErrorCrash
  deriving DecidableEq, Repr

/-- HTTP status each failure surfaces as: the two `HTTPException`s carry
401; the unhandled `AttributeError` becomes a 500 response. -/
def authFailureHttpStatus : AuthFailure → Nat
  | .revoked _ => 401
  | .couldNotValidate => 401
  | .attributeErrorCrash => 500

/-- Embeds `deps.get_current_user`: (A) reject if the token is blacklisted,
(B) decode the JWT and read `sub`, (C) look the user up; any failure in
(B)/(C) raises the 401 `credentials_exception`. -/
def getCurrentUser (bl : Blacklist) (users : List User) (tok : Token) (now : Int) :
    Except AuthFailure User :=
  if isTokenRevoked bl tok now then
    .error (.revoked "Token has been revoked (logged out)")
  else
    match jwtDecode tok now with
    | none => .error .couldNotValidate
    | some payload =>
      match payload.sub with
      | none => .error .couldNotValidate
      | some username =>
        match users.find? (fun u => u.username == username) with
        | none => .error .couldNotValidate
        | some u => .ok u

/-- Embeds `AuthService.refresh_access_token`: decode, check the token class,
check the blacklist, check the user, revoke the old refresh token when its
remaining TTL is positive, and mint new tokens for the user.  Every
rejection site writes `raise exc.InvalidToken("...")`, but that class does
not exist, so each of those paths — including the `except JWTError` handler
for a decode failure — aborts with the `AttributeError` crash instead of a
domain error.  The result carries the subject the new tokens are minted for
and the updated blacklist. -/
def refreshAccessToken (bl : Blacklist) (users : List User) (tok : Token) (now : Int) :
    Except AuthFailure (String × Blacklist) :=
  match jwtDecode tok now with
  | none => .error .attributeErrorCrash
  | some payload =>
    if payload.typ != "refresh" then
      .error .attributeErrorCrash
    else if isTokenRevoked bl tok now then
      .error .attributeErrorCrash
    else
      match payload.sub with
      | none => .error .attributeErrorCrash
      | some username =>
        match users.find? (fun u => u.username == username) with
        | none => .error .attributeErrorCrash
        | some u =>
          let ttl := payload.exp - now
          let bl' := if ttl > 0 then setex bl tok (now + ttl) else bl
          .ok (u.username, bl')

/-- Embeds `AuthService.logout`: decode the presented token, compute
`ttl = exp - now`, and blacklist the token for `ttl` seconds when
`ttl > 0`.  A decode failure (bad signature or `exp < now`) lands in the
`except JWTError` handler, whose `raise exc.InvalidToken(...)` names a class
that does not exist — the path aborts with the `AttributeError` crash. -/
def logout (bl : Blacklist) (tok : Token) (now : Int) : Except AuthFailure Blacklist :=
  match jwtDecode tok now with
  | none => .error .attributeErrorCrash
  | some payload =>
    let ttl := payload.exp - now
    if ttl > 0 then .ok (setex bl tok (now + ttl)) else .ok bl

/-! ### Relational rows

`Recipe` and `Review` mirror the SQLModel tables in
`src/database-service/src/models/`.  Generated primary keys are modelled by
`nextRecipeId` / `nextReviewId` counters in the database state; rows are kept
in insertion order, so SQL `first()` is `List.find?`. -/

structure Recipe where
  id : Nat
  user_id : Option Nat := none
  name : String
  category : Option String := none
  area : Option String := none
  instructions : Option String := none
  image : Option String := none
  tags : Option String := none
  is_custom : Bool := true
  external_id : Option String := none
  deriving DecidableEq, Repr

structure Review where
  id : Nat
  user_id : Nat
  recipe_id : Nat
  rating : Int
  comment : String
  deriving DecidableEq, Repr

structure DB where
  recipes : List Recipe
  reviews : List Review
  nextRecipeId : Nat
  nextReviewId : Nat
  deriving DecidableEq, Repr

/-! ### Database-service recipe operations
(`src/database-service/src/services/recipe_service.py`) -/

/-- Embeds `RecipeService.get_recipe_by_external_id`: first row whose
`external_id` equals the given string. -/
def getRecipeByExternalId (db : DB) (externalId : String) : Option Recipe :=
  db.recipes.find? (fun r => r.external_id == some externalId)

/-- Embeds `session.get(Recipe, recipe_id)` / `RecipeService.get_custom_recipe_by_id`:
primary-key lookup. -/
def getCustomRecipeById (db : DB) (recipeId : Nat) : Option Recipe :=
  db.recipes.find? (fun r => r.id == recipeId)

/-- The `ShadowRecipeCreate` schema of
`src/database-service/src/schemas/recipe.py`. -/
structure ShadowRecipeCreate where
  external_id : String
  name : String
  image : Option String := none
  category : Option String := none
  area : Option String := none
  deriving DecidableEq, Repr

/-- Embeds `RecipeService.create_shadow_recipe`: return the id of an existing row
with the same `external_id`, else insert a fresh row with `is_custom = false`
(its `user_id`, `instructions` and `tags` are left at their defaults,
i.e. absent). -/
def create_shadow_recipe (db : DB) (data : ShadowRecipeCreate) : Nat × DB :=
  match getRecipeByExternalId db data.external_id with
  | some existing => (existing.id, db)
  | none =>
    let shadow : Recipe :=
      { id := db.nextRecipeId
        user_id := none
        name := data.name
        image := data.image
        external_id := some data.external_id
        category := data.category
        area := data.area
        is_custom := false }
    (shadow.id,
      { db with
          recipes := db.recipes ++ [shadow]
          nextRecipeId := db.nextRecipeId + 1 })

/-- The `RecipeUpdate` schema (ingredient updates are outside the scope of
the claims and omitted); `none` = field not set in the request. -/
structure RecipeUpdate where
  name : Option String := none
  category : Option String := none
  area : Option String := none
  instructions : Option String := none
  image : Option String := none
  tags : Option String := none
  deriving DecidableEq, Repr

/-- Embeds `db_recipe.sqlmodel_update(update_data)` with
`model_dump(exclude_unset=True)`: each set field overwrites the row's. -/
def applyUpdate (r : Recipe) (u : RecipeUpdate) : Recipe :=
  { r with
      name := u.name.getD r.name
      category := if u.category.isSome then u.category else r.category
      area := if u.area.isSome then u.area else r.area
      instructions := if u.instructions.isSome then u.instructions else r.instructions
      image := if u.image.isSome then u.image else r.image
      tags := if u.tags.isSome then u.tags else r.tags }

/-- Embeds `RecipeService.update_custom_recipe`: primary-key lookup, then update in
place; `none` when the row does not exist. -/
def update_custom_recipe (db : DB) (recipeId : Nat) (upd : RecipeUpdate) :
    Option Recipe × DB :=
  match getCustomRecipeById db recipeId with
  | none => (none, db)
  | some r =>
    let r' := applyUpdate r upd
    (some r',
      { db with recipes := db.recipes.map (fun x => if x.id == recipeId then r' else x) })

/-- Embeds `RecipeService.delete_custom_recipe`: delete the row with the given
primary key; `false` when absent. -/
def delete_custom_recipe (db : DB) (recipeId : Nat) : Bool × DB :=
  match getCustomRecipeById db recipeId with
  | none => (false, db)
  | some _ => (true, { db with recipes := db.recipes.filter (fun x => !(x.id == recipeId)) })

/-! ### Database-service review operations
(`src/database-service/src/services/review_service.py`) -/

/-- The database service's `ReviewCreate` schema
(`src/database-service/src/schemas/review.py`): `rating : int` carries no
range constraint, so schema validation accepts every integer rating. -/
def dbServiceReviewCreateValid (_rating : Int) : Bool :=
  true

/-- Embeds `ReviewService.create_review` (database service): unconditionally insert
the row and return its generated id. -/
def dbCreateReview (db : DB) (userId recipeId : Nat) (rating : Int) (comment : String) :
    Nat × DB :=
  let rev : Review :=
    { id := db.nextReviewId
      user_id := userId
      recipe_id := recipeId
      rating := rating
      comment := comment }
  (rev.id, { db with reviews := db.reviews ++ [rev], nextReviewId := db.nextReviewId + 1 })

/-- Embeds `session.get(Review, review_id)` / `ReviewService.get_review_by_id`. -/
def getReviewById (db : DB) (reviewId : Nat) : Option Review :=
  db.reviews.find? (fun v => v.id == reviewId)

/-- Embeds `ReviewService.delete_review_raw`: primary-key delete. -/
def delete_review_raw (db : DB) (reviewId : Nat) : Bool × DB :=
  match getReviewById db reviewId with
  | none => (false, db)
  | some _ => (true, { db with reviews := db.reviews.filter (fun v => !(v.id == reviewId)) })

/-- Python `str.isdigit` on the identifiers the services handle: non-empty
and all digits (written over the character list so that it evaluates inside
the kernel). -/
def strIsDigit (s : String) : Bool :=
  !(s.data.isEmpty) && s.data.all Char.isDigit

/-- Python `int(s)` on a digit string. -/
def strToNatModel (s : String) : Nat :=
  s.data.foldl (fun n c => n * 10 + (c.toNat - 48)) 0

/-- The recipe-selection condition of
`ReviewService.get_reviews_by_recipe` in `auto` mode:
`or_(Recipe.external_id == str(ident), Recipe.id == int(ident))`, the second
disjunct only when `ident.isdigit()`. -/
def autoMatch (ident : String) (r : Recipe) : Bool :=
  r.external_id == some ident || (strIsDigit ident && r.id == strToNatModel ident)

/-- The row `ReviewService.get_reviews_by_recipe` resolves the identifier to:
the `first()` row satisfying the mode's condition. -/
def findRecipeForReviews (db : DB) (mode ident : String) : Option Recipe :=
  if mode == "external" then
    db.recipes.find? (fun r => r.external_id == some ident)
  else if mode == "internal" then
    if !(strIsDigit ident) then none
    else db.recipes.find? (fun r => r.id == strToNatModel ident)
  else
    db.recipes.find? (fun r => autoMatch ident r)

/-- Embeds `ReviewService.get_reviews_by_recipe` (database service): resolve the
identifier to a recipe row, then return that row's reviews (the
user join and ordering do not affect which recipe's reviews are picked and
are omitted). -/
def get_reviews_by_recipe (db : DB) (ident : String) (mode : String) : List Review :=
  match findRecipeForReviews db mode ident with
  | none => []
  | some recipe => db.reviews.filter (fun v => v.recipe_id == recipe.id)

/-! ### Interaction-service recipe operations
(`src/recipe-crud-interaction/src/services/recipe_service.py`)

The outbound HTTP call of `_fetch_external_recipe` is modelled by an
`Option ExtRecipe` argument: `some` is a 200 response with the provider's
payload, `none` is any failure (non-200, timeout, connection error). -/

/-- The fields `_fetch_external_recipe` reads from the fetch service's
response. -/
structure ExtRecipe where
  id_external : String
  name : String
  image : Option String := none
  category : Option String := none
  area : Option String := none
  instructions : Option String := none
  deriving DecidableEq, Repr

/-- The dict `RecipeService.get_recipe` returns: either an internal row
tagged `source = "internal"`, or the external payload tagged
`source = "external"` with `id = None` and no `user_id` key. -/
structure RecipeView where
  id : Option Nat
  user_id : Option Nat
  name : String
  is_custom : Bool
  external_id : Option String
  source : String
  deriving DecidableEq, Repr

/-- Embeds `RecipeService._fetch_external_recipe` as a view. -/
def fetchExternalRecipeView (fetch : Option ExtRecipe) : Option RecipeView :=
  match fetch with
  | none => none
  | some d =>
    some
      { id := none
        user_id := none
        external_id := some d.id_external
        name := d.name
        is_custom := false
        source := "external" }

def internalRecipeView (r : Recipe) : RecipeView :=
  { id := some r.id
    user_id := r.user_id
    name := r.name
    is_custom := r.is_custom
    external_id := r.external_id
    source := "internal" }

/-- Embeds `RecipeService.get_recipe` with the default `source`: try the
database service first, fall back to the external fetch.  The database
endpoint serialises the row through `CustomRecipeResponse`, whose `user_id`
field is a required `int`: a row with `user_id` NULL fails response
validation (500), `_req` turns that into an error dict without an `"id"`
key, and `get_recipe` falls back to the external fetch — so only rows with
a `user_id` come back as internal views. -/
def get_recipe (db : DB) (recipeId : Nat) (fetch : Option ExtRecipe) : Option RecipeView :=
  match getCustomRecipeById db recipeId with
  | some r =>
    match r.user_id with
    | some _ => some (internalRecipeView r)
    | none => fetchExternalRecipeView fetch
  | none => fetchExternalRecipeView fetch

/-- Failure responses of the interaction-service recipe/review handlers.
`permissionDenied` carries HTTP code 403, `notFound` 404;
`typeErrorCrash` models the unhandled `TypeError` that `int(None)` raises
when the looked-up row has no `user_id`. -/
inductive CrudError where
  | notFound
  | cannotUpdateExternal
  | permissionDenied
  | typeErrorCrash
  deriving DecidableEq, Repr

/-- Embeds `RecipeService.update_recipe`: look the recipe up, refuse external
recipes, refuse a requester that is not the owner, else forward the update
to the database service. -/
def update_recipe (db : DB) (userId recipeId : Nat) (upd : RecipeUpdate)
    (fetch : Option ExtRecipe) : Except CrudError (Option Recipe) × DB :=
  match get_recipe db recipeId fetch with
  | none => (.error .notFound, db)
  | some view =>
    if view.source == "external" then
      (.error .cannotUpdateExternal, db)
    else
      match view.user_id with
      | none => (.error .typeErrorCrash, db)
      | some owner =>
        if !(owner == userId) then
          (.error .permissionDenied, db)
        else
          let res := update_custom_recipe db recipeId upd
          (.ok res.1, res.2)

/-- Embeds `RecipeService.delete_recipe`: look the recipe up, refuse a requester
that is not the owner, else forward the delete to the database service
(unlike `update_recipe` there is no external-source guard). -/
def delete_recipe (db : DB) (userId recipeId : Nat) (fetch : Option ExtRecipe) :
    Except CrudError Bool × DB :=
  match get_recipe db recipeId fetch with
  | none => (.error .notFound, db)
  | some view =>
    match view.user_id with
    | none => (.error .typeErrorCrash, db)
    | some owner =>
      if !(owner == userId) then
        (.error .permissionDenied, db)
      else
        let res := delete_custom_recipe db recipeId
        (.ok res.1, res.2)

/-- Embeds the existence check `GET /recipes/external/{external_id}` that
`ensure_shadow_recipe` issues: the database service's v1 recipes router
(`src/database-service/src/api/v1/endpoints/recipes.py`) defines no such
route — only the reviews router has an `/external/...` path — so the call
always answers 404 and `_req` maps it to `None`, whatever the database
holds. -/
def recipesExternalIdRoute (_db : DB) (_externalId : String) : Option Recipe :=
  none

/-- Embeds `RecipeService.ensure_shadow_recipe`: look the external id up
through `GET /recipes/external/{id}` — a route that does not exist, so the
check always misses (see `recipesExternalIdRoute`) and the function always
proceeds to fetch; on fetch success the shadow row is created (or found,
deduplicated at the database level) through `POST /recipes/shadow` with the
payload `\x7bexternal_id, name, category\x7d`; a fetch failure yields no
id. -/
def ensure_shadow_recipe (db : DB) (externalId : String) (fetch : Option ExtRecipe) :
    Option Nat × DB :=
  match recipesExternalIdRoute db externalId with
  | some check => (some check.id, db)
  | none =>
    match fetch with
    | none => (none, db)
    | some extData =>
      let payload : ShadowRecipeCreate :=
        { external_id := externalId
          name := extData.name
          category := extData.category }
      let res := create_shadow_recipe db payload
      (some res.1, res.2)

/-! ### Interaction-service review operations
(`src/recipe-crud-interaction/src/services/review_service.py`) -/

/-- The interaction service's `ReviewCreate` schema
(`src/recipe-crud-interaction/src/schemas/review.py`); its `rating` field is
declared `Field(..., ge=1, le=5)`. -/
structure ReviewCreateIn where
  recipe_id : Option Nat := none
  external_id : Option String := none
  rating : Int
  comment : String
  deriving DecidableEq, Repr

/-- Pydantic validation of the interaction-layer `ReviewCreate.rating`. -/
def interactionReviewCreateValid (rating : Int) : Bool :=
  decide (1 ≤ rating) && decide (rating ≤ 5)

/-- Python truthiness of the optional ids the review code tests. -/
def truthyOptNat : Option Nat → Bool
  | none => false
  | some n => !(n == 0)

def truthyOptStr : Option String → Bool
  | none => false
  | some s => !(s == "")

inductive ReviewError where
  | shadowImportFailed
  | databaseSaveError
  | validationError
  deriving DecidableEq, Repr

/-- The `rid` resolution step of `ReviewService.create_review` (interaction
service): `if not rid and ext_id: rid = ensure_shadow_recipe(ext_id)`. -/
def resolveReviewRecipe (db : DB) (data : ReviewCreateIn) (fetch : Option ExtRecipe) :
    Option Nat × DB :=
  if !(truthyOptNat data.recipe_id) && truthyOptStr data.external_id then
    ensure_shadow_recipe db (data.external_id.getD "") fetch
  else
    (data.recipe_id, db)

/-- Embeds `ReviewService.create_review` (interaction service): when no internal
`recipe_id` was supplied but an `external_id` was, run the shadow import;
without a resulting (truthy) internal id, fail; else store the review
through the database service. -/
def create_review_interaction (db : DB) (userId : Nat) (data : ReviewCreateIn)
    (fetch : Option ExtRecipe) : Except ReviewError Nat × DB :=
  match resolveReviewRecipe db data fetch with
  | (none, db1) => (.error .shadowImportFailed, db1)
  | (some 0, db1) => (.error .shadowImportFailed, db1)
  | (some (n + 1), db1) =>
    (.ok (dbCreateReview db1 userId (n + 1) data.rating data.comment).1,
      (dbCreateReview db1 userId (n + 1) data.rating data.comment).2)

/-- The `POST /reviews/` handler of the interaction service
(`src/recipe-crud-interaction/src/api/v1/endpoints/reviews.py`): FastAPI
validates the body against `ReviewCreate` before the service runs, so an
out-of-range rating is rejected with no service call. -/
def create_review_endpoint (db : DB) (userId : Nat) (data : ReviewCreateIn)
    (fetch : Option ExtRecipe) : Except ReviewError Nat × DB :=
  if interactionReviewCreateValid data.rating then
    create_review_interaction db userId data fetch
  else
    (.error .validationError, db)

inductive DeleteReviewError where
  | notFound
  | invalidIdFormat
  | permissionDenied
  deriving DecidableEq, Repr

/-- HTTP code attached to each `delete_review` failure by the service /
endpoint pair. -/
def deleteReviewErrorCode : DeleteReviewError → Nat
  | .notFound => 404
  | .invalidIdFormat => 400
  | .permissionDenied => 403

/-- Embeds `ReviewService.delete_review` (interaction service): the review's author
may delete it; otherwise, when the review's recipe resolves to a row with a
truthy `user_id` equal to the requester, the recipe owner may; anyone else
receives the 403 permission error. -/
def delete_review_interaction (db : DB) (userId reviewId : Nat)
    (fetch : Option ExtRecipe) : Except DeleteReviewError Bool × DB :=
  match getReviewById db reviewId with
  | none => (.error .notFound, db)
  | some review =>
    if review.user_id == userId then
      let res := delete_review_raw db reviewId
      (.ok res.1, res.2)
    else if !(review.recipe_id == 0) then
      match get_recipe db review.recipe_id fetch with
      | some recipe =>
        match recipe.user_id with
        | some ownerId =>
          if !(ownerId == 0) && ownerId == userId then
            let res := delete_review_raw db reviewId
            (.ok res.1, res.2)
          else
            (.error .permissionDenied, db)
        | none => (.error .permissionDenied, db)
      | none => (.error .permissionDenied, db)
    else
      (.error .permissionDenied, db)

/-! ### Helper lemmas -/

lemma setex_setex (bl : Blacklist) (tok : Token) (e₁ e₂ : Int) :
    setex (setex bl tok e₁) tok e₂ = setex bl tok e₂ := by
  unfold setex
  simp [List.filter_filter]

lemma isTokenRevoked_setex (bl : Blacklist) (tok : Token) (e now : Int) (h : now < e) :
    isTokenRevoked (setex bl tok e) tok now = true := by
  unfold isTokenRevoked setex
  simp [h]

/-! ### Claims about the token lifecycle -/

/-- A signed, unexpired refresh token for the existing user `alice`,
sitting in the blacklist in the scenarios below. -/
def tokAlice : Token := { sub := some "alice", typ := "refresh", exp := 100, sigValid := true }

/-- Counterexample to claim C2 as stated: this blacklisted token has a valid
signature and an unexpired `exp`, yet `refresh_access_token` does not fail
with an invalid-token/unauthorized error — its revocation check executes
`raise exc.InvalidToken(...)` on a class `src.core.exceptions` never
defines, so the request aborts with an unhandled `AttributeError`, an
HTTP 500, not a 401. -/
theorem refresh_revoked_crashes_counterexample :
    isTokenRevoked [(tokAlice, 100)] tokAlice 10 = true ∧
    refreshAccessToken [(tokAlice, 100)] [⟨1, "alice"⟩] tokAlice 10 =
      .error .attributeErrorCrash ∧
    authFailureHttpStatus .attributeErrorCrash = 500 ∧
    authFailureHttpStatus .attributeErrorCrash ≠ 401 :=
  ⟨by decide, rfl, rfl, by decide⟩

/-- Claim C2 (amended): for every token present in the revocation store,
`get_current_user` rejects the request with the 401 revoked-token error
(before decoding, so signature and expiry are irrelevant), and
`refresh_access_token` never succeeds either — but its rejection aborts
with the unhandled-`AttributeError` 500 crash (the `InvalidToken` class it
tries to raise does not exist) rather than an invalid-token/unauthorized
error. -/
theorem revoked_token_rejected_everywhere
    (bl : Blacklist) (users : List User) (tok : Token) (now : Int)
    (hrev : isTokenRevoked bl tok now = true) :
    getCurrentUser bl users tok now =
      .error (.revoked "Token has been revoked (logged out)") ∧
    authFailureHttpStatus (.revoked "Token has been revoked (logged out)") = 401 ∧
    refreshAccessToken bl users tok now = .error .attributeErrorCrash ∧
    ∀ r, refreshAccessToken bl users tok now ≠ .ok r := by
  have hrefresh : refreshAccessToken bl users tok now = .error .attributeErrorCrash := by
    unfold refreshAccessToken
    cases hd : jwtDecode tok now with
    | none => rfl
    | some payload =>
      rw [hrev]
      by_cases ht : payload.typ = "refresh" <;> simp [ht]
  refine ⟨?_, rfl, hrefresh, ?_⟩
  · unfold getCurrentUser
    rw [hrev]
    simp
  · intro r h
    rw [hrefresh] at h
    exact absurd h (by simp)

theorem revoked_token_rejected_everywhere_witness :
    getCurrentUser [(tokAlice, 100)] [⟨1, "alice"⟩] tokAlice 10 =
      .error (.revoked "Token has been revoked (logged out)") ∧
    authFailureHttpStatus (.revoked "Token has been revoked (logged out)") = 401 ∧
    refreshAccessToken [(tokAlice, 100)] [⟨1, "alice"⟩] tokAlice 10 =
      .error .attributeErrorCrash ∧
    ∀ r, refreshAccessToken [(tokAlice, 100)] [⟨1, "alice"⟩] tokAlice 10 ≠ .ok r :=
  revoked_token_rejected_everywhere [(tokAlice, 100)] [⟨1, "alice"⟩] tokAlice 10 (by decide)

/-- A token whose signature verifies but whose `exp` already passed at the
instant `6` used below. -/
def tokExpired : Token := { sub := some "alice", typ := "access", exp := 5, sigValid := true }

/-- Counterexample to claim C3 as stated: for this well-formed-signature
token the TTL `exp - now = 5 - 6` is negative, yet `logout` does not succeed
leaving the store unchanged — `jwt.decode` rejects the expired token first
(`ExpiredSignatureError`, a `JWTError`), and the handler's
`raise exc.InvalidToken(...)` aborts with the unhandled `AttributeError`
crash (HTTP 500).  Nothing is written, but the operation fails. -/
theorem logout_negative_ttl_fails_counterexample :
    tokExpired.sigValid = true ∧
    tokExpired.exp - 6 < 0 ∧
    logout [] tokExpired 6 = .error .attributeErrorCrash ∧
    authFailureHttpStatus .attributeErrorCrash = 500 :=
  ⟨rfl, by decide, rfl, rfl⟩

lemma logout_eq_of_sigValid (bl : Blacklist) (tok : Token) (now : Int)
    (hsig : tok.sigValid = true) :
    logout bl tok now =
      if 0 < tok.exp - now then .ok (setex bl tok (now + (tok.exp - now)))
      else if tok.exp - now = 0 then .ok bl
      else .error .attributeErrorCrash := by
  unfold logout jwtDecode
  rw [hsig]
  by_cases hle : now ≤ tok.exp
  · simp only [hle, decide_eq_true_eq, iff_true, Bool.true_and, if_true, decide_True]
    by_cases hpos : 0 < tok.exp - now
    · simp [hpos]
    · have h0 : tok.exp - now = 0 := by omega
      simp [hpos, h0]
  · have h1 : ¬ 0 < tok.exp - now := by omega
    have h2 : ¬ tok.exp - now = 0 := by omega
    simp [hle, h1, h2]

/-- Claim C3 (amended): for a token whose signature verifies, revocation
computes `ttl = exp - now`; a strictly positive TTL writes the token to the
blacklist with exactly that TTL; a zero TTL writes nothing and still
succeeds; a negative TTL (token already expired) writes nothing but fails —
`jwt.decode` rejects the expired token before the TTL is computed, and the
handler's `raise exc.InvalidToken(...)` names a class that does not exist,
so the request aborts with an unhandled `AttributeError` (HTTP 500). -/
theorem logout_ttl_behavior (bl : Blacklist) (tok : Token) (now : Int)
    (hsig : tok.sigValid = true) :
    logout bl tok now =
      if 0 < tok.exp - now then .ok (setex bl tok (now + (tok.exp - now)))
      else if tok.exp - now = 0 then .ok bl
      else .error .attributeErrorCrash :=
  logout_eq_of_sigValid bl tok now hsig

def tokLive : Token := { sub := some "bob", typ := "refresh", exp := 10, sigValid := true }

theorem logout_ttl_behavior_witness :
    logout [] tokLive 3 =
      if 0 < tokLive.exp - 3 then .ok (setex [] tokLive (3 + (tokLive.exp - 3)))
      else if tokLive.exp - 3 = 0 then .ok []
      else .error .attributeErrorCrash :=
  logout_ttl_behavior [] tokLive 3 rfl

/-- Claim C6: revoking the same token twice is idempotent.  A first `logout`
of a live token blacklists it until its `exp`; while that entry is live, a
second `logout` succeeds, leaves the revocation state literally unchanged,
and the token stays blacklisted. -/
theorem logout_twice_idempotent (bl : Blacklist) (tok : Token) (now₁ now₂ : Int)
    (hsig : tok.sigValid = true) (h₁ : now₁ < tok.exp) (h₂ : now₂ < tok.exp) :
    logout bl tok now₁ = .ok (setex bl tok tok.exp) ∧
    isTokenRevoked (setex bl tok tok.exp) tok now₂ = true ∧
    logout (setex bl tok tok.exp) tok now₂ = .ok (setex bl tok tok.exp) := by
  have harith₁ : now₁ + (tok.exp - now₁) = tok.exp := by ring
  have harith₂ : now₂ + (tok.exp - now₂) = tok.exp := by ring
  refine ⟨?_, isTokenRevoked_setex bl tok tok.exp now₂ h₂, ?_⟩
  · rw [logout_eq_of_sigValid bl tok now₁ hsig]
    rw [if_pos (by omega : (0:Int) < tok.exp - now₁), harith₁]
  · rw [logout_eq_of_sigValid (setex bl tok tok.exp) tok now₂ hsig]
    rw [if_pos (by omega : (0:Int) < tok.exp - now₂), harith₂, setex_setex]

theorem logout_twice_idempotent_witness :
    logout [] tokLive 3 = .ok (setex [] tokLive tokLive.exp) ∧
    isTokenRevoked (setex [] tokLive tokLive.exp) tokLive 7 = true ∧
    logout (setex [] tokLive tokLive.exp) tokLive 7 = .ok (setex [] tokLive tokLive.exp) :=
  logout_twice_idempotent [] tokLive 3 7 rfl (by decide) (by decide)

/-! ### Claims about the shadow-recipe import -/

/-- Concrete state used by the shadow-import theorems: one custom recipe
and one shadow row for external id `"52772"`. -/
def recipeCustom : Recipe :=
  { id := 1, user_id := some 1, name := "Pasta al pomodoro" }

def recipeShadow : Recipe :=
  { id := 2
    name := "Teriyaki Chicken Casserole"
    category := some "Chicken"
    is_custom := false
    external_id := some "52772" }

def dbShadow : DB :=
  { recipes := [recipeCustom, recipeShadow]
    reviews := []
    nextRecipeId := 3
    nextReviewId := 1 }

def extTeriyaki : ExtRecipe :=
  { id_external := "52772", name := "Teriyaki Chicken Casserole", category := some "Chicken" }

/-- Counterexample to claim C1 as stated: `dbShadow` already holds a row
with `external_id = "52772"`, yet an import of that id whose external fetch
fails returns no internal id at all rather than the existing row's id — the
existence check `GET /recipes/external/{id}` targets a route the database
service's v1 API does not define, so it can never find the row. -/
theorem ensure_shadow_existing_row_counterexample :
    getRecipeByExternalId dbShadow "52772" = some recipeShadow ∧
    ensure_shadow_recipe dbShadow "52772" none = (none, dbShadow) := by
  decide

/-- Claim C1 (amended): the interaction-level existence check always misses
(its route does not exist), so deduplication happens only in the database
service's `create_shadow_recipe`: when a row with the external id exists it
returns that row's id and inserts nothing.  Hence, if an import returned
the internal id `i` with resulting state `db'`, a repeat import of the same
external id whose fetch succeeds returns the same `i` and leaves `db'`
unchanged; a repeat import whose fetch fails returns no id (see the
counterexample), though it still inserts nothing. -/
theorem ensure_shadow_recipe_idempotent
    (db : DB) (e : String) (fetch : Option ExtRecipe) (i : Nat) (db' : DB)
    (h : ensure_shadow_recipe db e fetch = (some i, db')) :
    (∀ data : ShadowRecipeCreate, data.external_id = e →
      ∀ r, getRecipeByExternalId db e = some r →
        create_shadow_recipe db data = (r.id, db)) ∧
    ∀ extData', ensure_shadow_recipe db' e (some extData') = (some i, db') := by
  unfold ensure_shadow_recipe recipesExternalIdRoute at h
  constructor
  · intro data hdata r hr
    unfold create_shadow_recipe
    rw [hdata, hr]
  · intro extData'
    cases fetch with
    | none => simp at h
    | some extData =>
      simp only [create_shadow_recipe, Prod.mk.injEq, Option.some.injEq] at h
      cases hlook : getRecipeByExternalId db e with
      | some r =>
        rw [hlook] at h
        simp only [Prod.mk.injEq, Option.some.injEq] at h
        obtain ⟨hi, hdb⟩ := h
        subst hi
        subst hdb
        unfold ensure_shadow_recipe recipesExternalIdRoute
        simp only [create_shadow_recipe, hlook]
      | none =>
        rw [hlook] at h
        simp only [Prod.mk.injEq, Option.some.injEq] at h
        obtain ⟨hi, hdb⟩ := h
        subst hi
        subst hdb
        have hfind : getRecipeByExternalId
            { db with
                recipes := db.recipes ++
                  [{ id := db.nextRecipeId
                     user_id := none
                     name := extData.name
                     image := none
                     external_id := some e
                     category := extData.category
                     area := none
                     is_custom := false }]
                nextRecipeId := db.nextRecipeId + 1 } e = some
            { id := db.nextRecipeId
              user_id := none
              name := extData.name
              image := none
              external_id := some e
              category := extData.category
              area := none
              is_custom := false } := by
          unfold getRecipeByExternalId at hlook ⊢
          simp only [List.find?_append, hlook, Option.none_or]
          simp
        unfold ensure_shadow_recipe recipesExternalIdRoute
        simp only [create_shadow_recipe, hfind]

theorem ensure_shadow_recipe_idempotent_witness :
    ensure_shadow_recipe dbShadow "52772" (some extTeriyaki) = (some 2, dbShadow) ∧
    create_shadow_recipe dbShadow
      { external_id := "52772", name := "Teriyaki Chicken Casserole", category := some "Chicken" } =
      (2, dbShadow) := by
  have h := ensure_shadow_recipe_idempotent dbShadow "52772" (some extTeriyaki) 2 dbShadow
    (by decide)
  exact ⟨h.2 extTeriyaki, h.1 _ rfl recipeShadow (by decide)⟩

/-- Claim C4: when no local row carries the external id and the external
fetch fails, the import returns no internal id and the store is unchanged:
no recipe row is created. -/
theorem ensure_shadow_recipe_fetch_failure
    (db : DB) (e : String) (hnone : getRecipeByExternalId db e = none) :
    ensure_shadow_recipe db e none = (none, db) :=
  rfl

theorem ensure_shadow_recipe_fetch_failure_witness :
    ensure_shadow_recipe dbShadow "53000" none = (none, dbShadow) :=
  ensure_shadow_recipe_fetch_failure dbShadow "53000" (by decide)

/-! ### Claims about review retrieval (identifier resolution) -/

/-- A shadow row whose `external_id` is the numeric string `"2"`. -/
def recipeExtTwo : Recipe :=
  { id := 1, name := "Arrabbiata", is_custom := false, external_id := some "2" }

/-- A custom row whose internal id is `2`. -/
def recipeIdTwo : Recipe :=
  { id := 2, user_id := some 7, name := "Bruschetta" }

def reviewsTwo : List Review :=
  [ { id := 1, user_id := 7, recipe_id := 1, rating := 5, comment := "great" },
    { id := 2, user_id := 7, recipe_id := 2, rating := 2, comment := "meh" } ]

def dbTwoAB : DB :=
  { recipes := [recipeExtTwo, recipeIdTwo], reviews := reviewsTwo
    nextRecipeId := 3, nextReviewId := 3 }

def dbTwoBA : DB :=
  { recipes := [recipeIdTwo, recipeExtTwo], reviews := reviewsTwo
    nextRecipeId := 3, nextReviewId := 3 }

/-- Counterexample to claim C5 as stated: the identifier `"2"` matches the
distinct rows `recipeExtTwo` (via `external_id`) and `recipeIdTwo` (via the
internal id), so auto-mode resolution is ambiguous; the two insertion orders
of the very same row set make `get_reviews_by_recipe` return the reviews of
two different recipes. -/
theorem auto_mode_collision_counterexample :
    recipeExtTwo ∈ dbTwoAB.recipes ∧ recipeIdTwo ∈ dbTwoAB.recipes ∧
    recipeExtTwo ≠ recipeIdTwo ∧
    autoMatch "2" recipeExtTwo = true ∧ autoMatch "2" recipeIdTwo = true ∧
    recipeExtTwo.external_id = some "2" ∧ recipeIdTwo.id = 2 ∧
    findRecipeForReviews dbTwoAB "auto" "2" = some recipeExtTwo ∧
    findRecipeForReviews dbTwoBA "auto" "2" = some recipeIdTwo ∧
    get_reviews_by_recipe dbTwoAB "2" "auto" ≠ get_reviews_by_recipe dbTwoBA "2" "auto" := by
  decide

/-- Claim C5 (amended): auto-mode resolution returns the first row matching
`external_id = ident` or, for a numeric `ident`, `id = int ident`.  For a
non-numeric identifier it is collision-free — under the unique-`external_id`
invariant at most one row can match, so at most one recipe is determined —
but a numeric identifier may match one recipe by internal id and a different
one by `external_id`, in which case row order decides whose reviews are
returned (see the counterexample). -/
theorem auto_mode_nonnumeric_unambiguous
    (db : DB) (ident : String)
    (huniq : ∀ r₁, r₁ ∈ db.recipes → ∀ r₂, r₂ ∈ db.recipes →
      ∀ x, r₁.external_id = some x → r₂.external_id = some x → r₁ = r₂)
    (hnd : strIsDigit ident = false)
    (r₁ r₂ : Recipe) (h₁ : r₁ ∈ db.recipes) (h₂ : r₂ ∈ db.recipes)
    (m₁ : autoMatch ident r₁ = true) (m₂ : autoMatch ident r₂ = true) :
    r₁ = r₂ := by
  unfold autoMatch at m₁ m₂
  rw [hnd] at m₁ m₂
  simp only [Bool.false_and, Bool.or_false, beq_iff_eq] at m₁ m₂
  exact huniq r₁ h₁ r₂ h₂ ident m₁ m₂

/-- A shadow row with a non-numeric external id, for the C5 witness. -/
def recipeExtAbc : Recipe :=
  { id := 3, name := "Carbonara", is_custom := false, external_id := some "abc" }

def dbAbc : DB :=
  { recipes := [recipeExtAbc, recipeIdTwo], reviews := []
    nextRecipeId := 4, nextReviewId := 1 }

theorem auto_mode_nonnumeric_unambiguous_witness :
    strIsDigit "abc" = false ∧ autoMatch "abc" recipeExtAbc = true ∧
    recipeExtAbc = recipeExtAbc :=
  ⟨by decide, by decide,
    auto_mode_nonnumeric_unambiguous dbAbc "abc"
      (by
        intro r₁ h₁ r₂ h₂ x hx₁ hx₂
        simp only [dbAbc, List.mem_cons, List.mem_singleton] at h₁ h₂
        rcases h₁ with rfl | rfl | h₁ <;> rcases h₂ with rfl | rfl | h₂ <;>
          simp_all [recipeExtAbc, recipeIdTwo])
      (by decide) recipeExtAbc recipeExtAbc (by decide) (by decide)
      (by decide) (by decide)⟩

/-! ### Claims about recipe ownership -/

lemma find?_id_filter_none (l : List Recipe) (rid : Nat) :
    (l.filter (fun x => !(x.id == rid))).find? (fun r => r.id == rid) = none := by
  rw [List.find?_eq_none]
  intro x hx
  have hmem := (List.mem_filter.mp hx).2
  simpa using hmem

/-- Claim C7: for an existing (internally stored) recipe with owner `owner`,
an update or delete requested by any other user fails with the permission
error and leaves the database unchanged, while the owner's update succeeds
(rewriting exactly that row) and the owner's delete succeeds and removes the
row. -/
theorem recipe_ownership_enforced
    (db : DB) (recipeId owner u : Nat) (r : Recipe) (upd : RecipeUpdate)
    (fetch : Option ExtRecipe)
    (hr : getCustomRecipeById db recipeId = some r)
    (hown : r.user_id = some owner) :
    (u ≠ owner →
      update_recipe db u recipeId upd fetch = (.error .permissionDenied, db) ∧
      delete_recipe db u recipeId fetch = (.error .permissionDenied, db)) ∧
    update_recipe db owner recipeId upd fetch =
      (.ok (some (applyUpdate r upd)),
        { db with recipes := db.recipes.map (fun x => if x.id == recipeId then applyUpdate r upd else x) }) ∧
    delete_recipe db owner recipeId fetch =
      (.ok true, { db with recipes := db.recipes.filter (fun x => !(x.id == recipeId)) }) ∧
    getCustomRecipeById
      { db with recipes := db.recipes.filter (fun x => !(x.id == recipeId)) } recipeId = none := by
  have hview : get_recipe db recipeId fetch = some (internalRecipeView r) := by
    simp only [get_recipe, hr, hown]
  refine ⟨?_, ?_, ?_, ?_⟩
  · intro hne
    have hbeq : (owner == u) = false := by
      simp [Ne.symm hne]
    constructor
    · unfold update_recipe
      rw [hview]
      simp only [internalRecipeView]
      rw [hown]
      simp [hbeq]
    · unfold delete_recipe
      rw [hview]
      simp only [internalRecipeView]
      rw [hown]
      simp [hbeq]
  · unfold update_recipe
    rw [hview]
    simp only [internalRecipeView]
    rw [hown]
    simp only [beq_self_eq_true, Bool.not_true, Bool.false_eq_true, if_false]
    unfold update_custom_recipe
    rw [hr]
    simp
  · unfold delete_recipe
    rw [hview]
    simp only [internalRecipeView]
    rw [hown]
    simp only [beq_self_eq_true, Bool.not_true, Bool.false_eq_true, if_false]
    unfold delete_custom_recipe
    rw [hr]
  · exact find?_id_filter_none db.recipes recipeId

/-- Concrete state for the C7 witness: user 1 owns the only recipe. -/
def dbOwned : DB :=
  { recipes := [recipeCustom], reviews := [], nextRecipeId := 2, nextReviewId := 1 }

def updRename : RecipeUpdate := { name := some "Pasta alla norma" }

theorem recipe_ownership_enforced_witness :
    update_recipe dbOwned 2 1 updRename none = (.error .permissionDenied, dbOwned) ∧
    delete_recipe dbOwned 2 1 none = (.error .permissionDenied, dbOwned) ∧
    delete_recipe dbOwned 1 1 none =
      (.ok true, { dbOwned with
        recipes := dbOwned.recipes.filter (fun x => !(x.id == 1)) }) := by
  have h := recipe_ownership_enforced dbOwned 1 1 2 recipeCustom updRename none
    (by decide) (by decide)
  exact ⟨(h.1 (by decide)).1, (h.1 (by decide)).2, h.2.2.1⟩

/-! ### Claims about review creation -/

lemma ensure_shadow_reviews_unchanged (db : DB) (e : String) (fetch : Option ExtRecipe) :
    (ensure_shadow_recipe db e fetch).2.reviews = db.reviews := by
  unfold ensure_shadow_recipe recipesExternalIdRoute
  cases fetch with
  | none => rfl
  | some d =>
    simp only [create_shadow_recipe]
    cases h : getRecipeByExternalId db e <;> rfl

/-- Claim C8: a review created with only an external recipe identifier whose
fetch succeeds produces a local recipe row with `is_custom = false` and that
`external_id`, and attaches the review to that row's internal id. -/
theorem review_with_external_id_creates_shadow
    (db : DB) (userId : Nat) (data : ReviewCreateIn) (e : String) (extData : ExtRecipe)
    (hrid : data.recipe_id = none)
    (hext : data.external_id = some e)
    (hne : e ≠ "")
    (hnew : getRecipeByExternalId db e = none)
    (hpos : 0 < db.nextRecipeId) :
    ∃ shadow rev db',
      create_review_interaction db userId data (some extData) = (.ok rev.id, db') ∧
      shadow.is_custom = false ∧
      shadow.external_id = some e ∧
      db'.recipes = db.recipes ++ [shadow] ∧
      db'.reviews = db.reviews ++ [rev] ∧
      rev.recipe_id = shadow.id ∧
      rev.user_id = userId ∧
      rev.rating = data.rating ∧
      rev.comment = data.comment := by
  have hbe : (e == "") = false := by
    simpa using hne
  have hensure : ensure_shadow_recipe db e (some extData) =
      (some db.nextRecipeId,
        { db with
            recipes := db.recipes ++
              [{ id := db.nextRecipeId
                 user_id := none
                 name := extData.name
                 image := none
                 external_id := some e
                 category := extData.category
                 area := none
                 is_custom := false }]
            nextRecipeId := db.nextRecipeId + 1 }) := by
    unfold ensure_shadow_recipe recipesExternalIdRoute
    simp only [create_shadow_recipe, hnew]
  refine ⟨{ id := db.nextRecipeId
            user_id := none
            name := extData.name
            image := none
            external_id := some e
            category := extData.category
            area := none
            is_custom := false },
          { id := db.nextReviewId
            user_id := userId
            recipe_id := db.nextRecipeId
            rating := data.rating
            comment := data.comment },
          { recipes := db.recipes ++
              [{ id := db.nextRecipeId
                 user_id := none
                 name := extData.name
                 image := none
                 external_id := some e
                 category := extData.category
                 area := none
                 is_custom := false }]
            reviews := db.reviews ++
              [{ id := db.nextReviewId
                 user_id := userId
                 recipe_id := db.nextRecipeId
                 rating := data.rating
                 comment := data.comment }]
            nextRecipeId := db.nextRecipeId + 1
            nextReviewId := db.nextReviewId + 1 },
          ?_, rfl, rfl, rfl, rfl, rfl, rfl, rfl, rfl⟩
  have hres : resolveReviewRecipe db data (some extData) =
      (some db.nextRecipeId,
        { db with
            recipes := db.recipes ++
              [{ id := db.nextRecipeId
                 user_id := none
                 name := extData.name
                 image := none
                 external_id := some e
                 category := extData.category
                 area := none
                 is_custom := false }]
            nextRecipeId := db.nextRecipeId + 1 }) := by
    unfold resolveReviewRecipe
    rw [hrid, hext]
    have hcond : (!(truthyOptNat none) && truthyOptStr (some e)) = true := by
      simp [truthyOptNat, truthyOptStr, hbe]
    rw [hcond]
    simp only [if_true, Option.getD_some]
    exact hensure
  obtain ⟨m, hm⟩ : ∃ m, db.nextRecipeId = m + 1 := ⟨db.nextRecipeId - 1, by omega⟩
  unfold create_review_interaction
  rw [hm] at hres ⊢
  rw [hres]
  simp only [dbCreateReview]

def dataReviewExt : ReviewCreateIn :=
  { external_id := some "52772", rating := 5, comment := "tasty" }

theorem review_with_external_id_creates_shadow_witness :
    ∃ shadow rev db',
      create_review_interaction dbOwned 1 dataReviewExt (some extTeriyaki) = (.ok rev.id, db') ∧
      shadow.is_custom = false ∧
      shadow.external_id = some "52772" ∧
      db'.recipes = dbOwned.recipes ++ [shadow] ∧
      db'.reviews = dbOwned.reviews ++ [rev] ∧
      rev.recipe_id = shadow.id ∧
      rev.user_id = 1 ∧
      rev.rating = dataReviewExt.rating ∧
      rev.comment = dataReviewExt.comment :=
  review_with_external_id_creates_shadow dbOwned 1 dataReviewExt "52772" extTeriyaki
    rfl rfl (by decide) (by decide) (by decide)

/-- Every successful interaction-level review creation appends exactly one
review carrying the request's `user_id`, `rating` and `comment` to an
intermediate state whose reviews are those of `db`. -/
lemma create_review_interaction_ok_shape
    (db : DB) (u : Nat) (data : ReviewCreateIn) (fetch : Option ExtRecipe)
    (revId : Nat) (db' : DB)
    (h : create_review_interaction db u data fetch = (.ok revId, db')) :
    ∃ (rid : Nat) (dbMid : DB), dbMid.reviews = db.reviews ∧
      db'.reviews = dbMid.reviews ++
        [{ id := dbMid.nextReviewId
           user_id := u
           recipe_id := rid
           rating := data.rating
           comment := data.comment }] := by
  have hkeep : (resolveReviewRecipe db data fetch).2.reviews = db.reviews := by
    unfold resolveReviewRecipe
    split
    · exact ensure_shadow_reviews_unchanged db (data.external_id.getD "") fetch
    · rfl
  unfold create_review_interaction at h
  cases hS : resolveReviewRecipe db data fetch with
  | mk ro db1 =>
    rw [hS] at h hkeep
    cases ro with
    | none => simp at h
    | some n =>
      cases n with
      | zero => simp at h
      | succ m =>
        simp only [dbCreateReview, Prod.mk.injEq] at h
        exact ⟨m + 1, db1, hkeep, by rw [← h.2]⟩

/-- A database holding one review with rating `6`, as stored unchecked by
the database service. -/
def dbPlain : DB :=
  { recipes := [recipeCustom], reviews := [], nextRecipeId := 2, nextReviewId := 1 }

/-- Counterexample to claim C9 as stated: the database service's own
creation path accepts a rating of `6` — its `ReviewCreate` schema carries no
range constraint and `create_review` stores the row unconditionally — so not
every input with a rating outside `1..5` is rejected before a row is
stored. -/
theorem db_service_rating_unchecked_counterexample :
    dbServiceReviewCreateValid 6 = true ∧
    (dbCreateReview dbPlain 7 1 6 "spam").2.reviews =
      [{ id := 1, user_id := 7, recipe_id := 1, rating := 6, comment := "spam" }] ∧
    ((dbCreateReview dbPlain 7 1 6 "spam").2.reviews.all
      (fun v => decide (1 ≤ v.rating) && decide (v.rating ≤ 5))) = false := by
  refine ⟨rfl, rfl, by decide⟩

/-- Claim C9 (amended): the `1..5` rating bound is enforced only by the
interaction service's `ReviewCreate` schema: a creation request through the
interaction endpoint with a rating outside `1..5` is rejected by validation
before any row is stored (the state is unchanged), and every review a
successful interaction-level creation adds satisfies `1 ≤ rating ≤ 5`; the
database service's own creation path performs no range check (see the
counterexample). -/
theorem review_rating_bounds_interaction_only
    (db : DB) (u : Nat) (data : ReviewCreateIn) (fetch : Option ExtRecipe) :
    (¬(1 ≤ data.rating ∧ data.rating ≤ 5) →
      create_review_endpoint db u data fetch = (.error .validationError, db)) ∧
    (∀ revId db', create_review_endpoint db u data fetch = (.ok revId, db') →
      ∀ rev ∈ db'.reviews, rev ∈ db.reviews ∨ (1 ≤ rev.rating ∧ rev.rating ≤ 5)) := by
  constructor
  · intro hout
    unfold create_review_endpoint interactionReviewCreateValid
    have hcond : (decide (1 ≤ data.rating) && decide (data.rating ≤ 5)) = false := by
      by_cases h1 : 1 ≤ data.rating
      · have h2 : ¬ data.rating ≤ 5 := fun h => hout ⟨h1, h⟩
        simp [h2]
      · simp [h1]
    rw [hcond]
    simp
  · intro revId db' hok rev hrev
    unfold create_review_endpoint at hok
    cases hv : interactionReviewCreateValid data.rating with
    | false => rw [hv] at hok; simp at hok
    | true =>
      rw [hv] at hok
      simp only [if_true] at hok
      have hbound : 1 ≤ data.rating ∧ data.rating ≤ 5 := by
        unfold interactionReviewCreateValid at hv
        simpa using hv
      obtain ⟨rid, dbMid, hMid, hrevs⟩ :=
        create_review_interaction_ok_shape db u data fetch revId db' hok
      rw [hrevs, hMid] at hrev
      rcases List.mem_append.mp hrev with hl | hr
      · exact Or.inl hl
      · rcases List.mem_singleton.mp hr with rfl
        exact Or.inr hbound

def dataBadRating : ReviewCreateIn :=
  { recipe_id := some 1, rating := 9, comment := "nope" }

theorem review_rating_bounds_interaction_only_witness :
    create_review_endpoint dbPlain 1 dataBadRating none =
      (.error .validationError, dbPlain) :=
  (review_rating_bounds_interaction_only dbPlain 1 dataBadRating none).1 (by decide)

/-! ### Claims about review deletion -/

lemma find?_review_id_filter_none (l : List Review) (rid : Nat) :
    (l.filter (fun v => !(v.id == rid))).find? (fun v => v.id == rid) = none := by
  rw [List.find?_eq_none]
  intro x hx
  have hmem := (List.mem_filter.mp hx).2
  simpa using hmem

lemma delete_review_interaction_found
    (db : DB) (u reviewId : Nat) (fetch : Option ExtRecipe) (review : Review)
    (hrev : getReviewById db reviewId = some review) :
    delete_review_interaction db u reviewId fetch =
      if review.user_id == u then
        (.ok (delete_review_raw db reviewId).1, (delete_review_raw db reviewId).2)
      else if !(review.recipe_id == 0) then
        (match get_recipe db review.recipe_id fetch with
         | some recipe =>
           match recipe.user_id with
           | some ownerId =>
             if !(ownerId == 0) && ownerId == u then
               (.ok (delete_review_raw db reviewId).1, (delete_review_raw db reviewId).2)
             else (.error .permissionDenied, db)
           | none => (.error .permissionDenied, db)
         | none => (.error .permissionDenied, db))
      else (.error .permissionDenied, db) := by
  unfold delete_review_interaction
  rw [hrev]

/-- Claim C10: for an existing review whose recipe is stored internally with
a (nonzero) owner, deletion succeeds exactly for the review's author and for
the recipe's owner — removing the review — and every other requester
receives the permission-denied error (HTTP 403) with the review left in
place. -/
theorem delete_review_permissions
    (db : DB) (u reviewId : Nat) (fetch : Option ExtRecipe)
    (review : Review) (r : Recipe) (owner : Nat)
    (hrev : getReviewById db reviewId = some review)
    (hrec : getCustomRecipeById db review.recipe_id = some r)
    (hown : r.user_id = some owner)
    (howner0 : owner ≠ 0)
    (hrid0 : review.recipe_id ≠ 0) :
    ((u = review.user_id ∨ u = owner) →
      delete_review_interaction db u reviewId fetch =
        (.ok true, { db with reviews := db.reviews.filter (fun v => !(v.id == reviewId)) }) ∧
      getReviewById { db with reviews := db.reviews.filter (fun v => !(v.id == reviewId)) } reviewId = none) ∧
    (u ≠ review.user_id → u ≠ owner →
      delete_review_interaction db u reviewId fetch = (.error .permissionDenied, db) ∧
      deleteReviewErrorCode .permissionDenied = 403) := by
  have hview : get_recipe db review.recipe_id fetch = some (internalRecipeView r) := by
    simp only [get_recipe, hrec, hown]
  have hdel : delete_review_raw db reviewId =
      (true, { db with reviews := db.reviews.filter (fun v => !(v.id == reviewId)) }) := by
    unfold delete_review_raw
    rw [hrev]
  have hafter : getReviewById
      { db with reviews := db.reviews.filter (fun v => !(v.id == reviewId)) } reviewId = none :=
    find?_review_id_filter_none db.reviews reviewId
  have hrid0' : (review.recipe_id == 0) = false := by
    simpa using hrid0
  rw [delete_review_interaction_found db u reviewId fetch review hrev]
  constructor
  · intro hu
    by_cases hau : review.user_id = u
    · rw [hau]
      simp only [beq_self_eq_true, if_true]
      rw [hdel]
      exact ⟨rfl, hafter⟩
    · have hau' : (review.user_id == u) = false := by
        simpa using hau
      have huo : u = owner := by
        cases hu with
        | inl h => exact absurd h.symm hau
        | inr h => exact h
      have howner0' : (owner == 0) = false := by
        simpa using howner0
      simp only [hau', Bool.false_eq_true, if_false, hrid0', Bool.not_false, if_true]
      rw [hview]
      simp only [internalRecipeView]
      rw [hown, huo]
      simp only [howner0', Bool.not_false, beq_self_eq_true, Bool.and_self, if_true]
      rw [hdel]
      exact ⟨rfl, hafter⟩
  · intro hna hno
    have hau' : (review.user_id == u) = false := by
      simpa using fun h => hna h.symm
    have hno' : (owner == u) = false := by
      simpa using fun h => hno h.symm
    simp only [hau', Bool.false_eq_true, if_false, hrid0', Bool.not_false, if_true]
    rw [hview]
    simp only [internalRecipeView]
    rw [hown]
    simp only [hno', Bool.and_false, Bool.false_eq_true, if_false]
    exact ⟨trivial, rfl⟩

/-- Concrete state for the C10 witness: user 7 reviewed recipe 1, which is
owned by user 1. -/
def reviewByUser7 : Review :=
  { id := 1, user_id := 7, recipe_id := 1, rating := 4, comment := "nice" }

def dbReviewed : DB :=
  { recipes := [recipeCustom], reviews := [reviewByUser7], nextRecipeId := 2, nextReviewId := 2 }

theorem delete_review_permissions_witness :
    delete_review_interaction dbReviewed 7 1 none =
      (.ok true, { dbReviewed with reviews := dbReviewed.reviews.filter (fun v => !(v.id == 1)) }) ∧
    delete_review_interaction dbReviewed 2 1 none = (.error .permissionDenied, dbReviewed) := by
  have hauthor := delete_review_permissions dbReviewed 7 1 none reviewByUser7 recipeCustom 1
    (by decide) (by decide) (by decide) (by decide) (by decide)
  have hother := delete_review_permissions dbReviewed 2 1 none reviewByUser7 recipeCustom 1
    (by decide) (by decide) (by decide) (by decide) (by decide)
  exact ⟨(hauthor.1 (Or.inl (by decide))).1, (hother.2 (by decide) (by decide)).1⟩

end MealPlanner
